import Mathlib

/-!
Closetly backend — shallow embedding and verification

This file embeds, in Lean 4, the request handlers of the Closetly demo
backend (`app.py` price endpoints and `fashion_price_api.py` auth/profile
and undertone-analysis code) and proves or refutes the frozen claims
about them.

Modelling conventions:

* Python floats are modelled by `ℚ` (exact rationals).  Every
  counterexample below stays away from representation/tie edge cases, so
  the conclusions carry over to IEEE doubles.
* The `round(x, 2)` of the handlers is modelled by `round2` below, using the Mathlib `round`
  (round half up).  Python rounds ties to even, but no value appearing in
  any theorem or counterexample in this file is a tie, so the tie-breaking
  convention is immaterial.
* `random.uniform(a, b)` is modelled as `a + u * (b - a)` where `u : ℚ`
  is a caller-supplied unit draw; this is exactly how CPython
  implements `uniform`, with `u = random()`.  Handlers therefore
  take their random draws as explicit parameters.
* A Python exception reaching the `except Exception` clause of a handler is
  modelled by an explicit error value; the handler converts it into an
  HTTP 500 response, exactly as the `except` blocks do.
* The SQLite tables of `fashion_price_api.py` are modelled as lists of
  rows inside a `DB` state record; the password hash
  (`werkzeug.generate_password_hash`, an external library call) is a
  function parameter.
-/

/-- Rounding to two decimal places, the `round(x, 2)` of the handlers. -/
def round2 (x : ℚ) : ℚ := (round (100 * x) : ℤ) / 100

namespace Closetly

/-! ## `app.py` — pricing tables -/

/-- Table `BRAND_PRICES` from `app.py`: brand → (base_min, base_max). -/
def BRAND_PRICES : List (String × ℚ × ℚ) :=
  [("Van Heusen", 800, 2500), ("Allen Solly", 900, 2800), ("Louis Philippe", 1000, 3500),
   ("Peter England", 600, 2000), ("Raymond", 1200, 5000), ("AND", 800, 3000),
   ("Vero Moda", 1000, 3500), ("Forever New", 1200, 4000), ("Marks & Spencer", 1500, 5500),
   ("Zara", 1500, 6000), ("Levi\x27s", 1500, 4000), ("Nike", 1200, 5000),
   ("Adidas", 1000, 4500), ("H&M", 500, 2000), ("Being Human", 700, 2000)]

/-- Table `CATEGORY_MULTIPLIERS` from `app.py`. -/
def CATEGORY_MULTIPLIERS : List (String × ℚ) :=
  [("Jeans", 1), ("Dress", 12/10), ("Shirt", 8/10), ("Blazer", 16/10), ("T-Shirt", 4/10),
   ("Jacket", 15/10), ("Sweater", 9/10), ("Pants", 9/10), ("Skirt", 8/10), ("Suits", 3)]

/-- Table `RETAILER_ADJUSTMENTS` from `app.py`. -/
def RETAILER_ADJUSTMENTS : List (String × ℚ) :=
  [("Myntra", 1), ("Ajio", 98/100), ("Flipkart", 95/100), ("Amazon India", 95/100),
   ("Lifestyle", 115/100), ("Westside", 11/10), ("Shoppers Stop", 12/10)]

/-- Python `dict` lookup (`d[k]` guarded by `k in d`, or `d.get(k)`). -/
def tlookup {α : Type} (xs : List (String × α)) (k : String) : Option α :=
  (xs.find? (fun p => p.1 == k)).map (fun p => p.2)

/-! ## `app.py` — `/predict` -/

/-- The JSON body of a `/predict` request; each field may be absent
(`data.get` with a default). -/
structure PredictRequest where
  brand : Option String
  category : Option String
  retailer : Option String
  discount_percent : Option ℚ
deriving DecidableEq

/-- The `price_range` object of a prediction. -/
structure PriceRange where
  min : ℚ
  max : ℚ
deriving DecidableEq

/-- The `prediction` object returned by `/predict`. -/
structure Prediction where
  current_price : ℚ
  original_price : ℚ
  price_range : PriceRange
  discount_percent : ℚ
deriving DecidableEq

/-- Exceptions that can reach the `except Exception` clause of a handler. -/
inductive PyError
  /-- An `AttributeError` (e.g. `.get` on `None` or on a non-dict value). -/
  | attrError
  /-- A `ZeroDivisionError`. -/
  | zeroDiv
deriving DecidableEq

/-- The pre-rounding price computed by `predict`:
`base_price * category_mult * retailer_adj * random.uniform(0.95, 1.05)`
with `base_price = random.uniform(base_min, base_max)`, written with the
unit draws `u, j ∈ [0,1]` made explicit. -/
def rawPrice (req : PredictRequest) (u j : ℚ) : ℚ :=
  let brand := req.brand.getD "Generic"
  let category := req.category.getD "Shirt"
  let retailer := req.retailer.getD "Myntra"
  let (base_min, base_max) := (tlookup BRAND_PRICES brand).getD (500, 2000)
  let base_price := base_min + u * (base_max - base_min)
  let category_mult := (tlookup CATEGORY_MULTIPLIERS category).getD 1
  let retailer_adj := (tlookup RETAILER_ADJUSTMENTS retailer).getD 1
  base_price * category_mult * retailer_adj * (95/100 + j * (1/10))

/-- Body of the `predict` handler on an already-parsed JSON object:
computes the price, derives `original_price` (raising
`ZeroDivisionError` when the discount makes the denominator zero), and
assembles the rounded response fields. -/
def predictCore (req : PredictRequest) (u j : ℚ) : Except PyError Prediction :=
  let discount_percent := req.discount_percent.getD 0
  let price := rawPrice req u j
  if 0 < discount_percent then
    if (1 - discount_percent / 100) = 0 then
      .error .zeroDiv
    else
      .ok { current_price := round2 price
            original_price := round2 (price / (1 - discount_percent / 100))
            price_range := { min := round2 (price * (85/100)), max := round2 (price * (115/100)) }
            discount_percent := discount_percent }
  else
    .ok { current_price := round2 price
          original_price := round2 (price * (13/10))
          price_range := { min := round2 (price * (85/100)), max := round2 (price * (115/100)) }
          discount_percent := discount_percent }

/-- HTTP outcome of the `/predict` endpoint. -/
inductive PredictResponse
  /-- 200 with `success: true` and a `prediction` object. -/
  | ok (status : ℕ) (p : Prediction)
  /-- Error JSON with `success: false` and the given status. -/
  | err (status : ℕ)
deriving DecidableEq

/-- The `/predict` endpoint.  A request body that is not a JSON object
(`data = None`) makes `data.get` raise `AttributeError`; any exception is
caught by the handler and converted to a 500 response. -/
def predict (body : Option PredictRequest) (u j : ℚ) : PredictResponse :=
  match body with
  | none => .err 500
  | some req =>
    match predictCore req u j with
    | .ok p => .ok 200 p
    | .error _ => .err 500

/-! ## `app.py` — `/compare` -/

/-- The JSON body of a `/compare` request. -/
structure CompareRequest where
  product_name : Option String
  brand : Option String
  category : Option String
deriving DecidableEq

/-- One entry of the `comparisons` list. -/
structure Comparison where
  retailer : String
  predicted_price : ℚ
  discount : ℕ
  search_url : String
deriving DecidableEq

instance : Inhabited Comparison := ⟨⟨"", 0, 0, ""⟩⟩

/-- Function `get_retailer_url` from `app.py`. -/
def get_retailer_url (retailer product_name : String) : String :=
  let product_slug := product_name.toLower.replace " " "-"
  let plus := product_name.replace " " "+"
  let urls : List (String × String) :=
    [("Myntra", "https://www.myntra.com/" ++ product_slug),
     ("Flipkart", "https://www.flipkart.com/search?q=" ++ plus),
     ("Amazon India", "https://www.amazon.in/s?k=" ++ plus),
     ("Ajio", "https://www.ajio.com/search/?text=" ++ plus),
     ("Lifestyle", "https://www.lifestylestores.com/in/en/search/?text=" ++ plus),
     ("Westside", "https://www.westside.com/search?q=" ++ plus)]
  (tlookup urls retailer).getD
    ("https://www.google.com/search?q=" ++ product_name ++ "+" ++ retailer)

/-- The fixed retailer list iterated by `compare`. -/
def compareRetailers : List String :=
  ["Myntra", "Flipkart", "Amazon India", "Ajio", "Lifestyle", "Westside"]

/-- The fixed discount set `random.choice` draws from in `compare`. -/
def discountChoices : List ℕ := [0, 10, 15, 20, 25, 30, 40]

/-- The loop body of `compare`, iterated over the retailer list.  Index
`i` selects the random draws of this retailer: `j i ∈ [0,1]` is the unit draw
behind `random.uniform(0.95, 1.05)` and `c i` selects the
`random.choice` element. -/
def compareEntries (base_price : ℚ) (product_name : String) (j : ℕ → ℚ) (c : ℕ → ℕ) :
    List String → ℕ → List Comparison
  | [], _ => []
  | retailer :: rest, i =>
    let retailer_adj := (tlookup RETAILER_ADJUSTMENTS retailer).getD 1
    let price := base_price * retailer_adj * (95/100 + j i * (1/10))
    { retailer := retailer
      predicted_price := round2 price
      discount := discountChoices.getD (c i % discountChoices.length) 0
      search_url := get_retailer_url retailer product_name } ::
      compareEntries base_price product_name j c rest (i + 1)

/-- The sort relation of the `comparisons.sort` call, keyed by predicted_price. -/
def priceLE (a b : Comparison) : Prop := a.predicted_price ≤ b.predicted_price

instance : DecidableRel priceLE := fun a b =>
  inferInstanceAs (Decidable (a.predicted_price ≤ b.predicted_price))

instance : IsTotal Comparison priceLE := ⟨fun a b => le_total a.predicted_price b.predicted_price⟩

instance : IsTrans Comparison priceLE := ⟨fun _ _ _ hab hbc => le_trans hab hbc⟩

/-- The success payload of `/compare`. -/
structure CompareResult where
  product : String
  brand : String
  comparisons : List Comparison
  best_deal : Comparison
deriving DecidableEq

/-- Body of the `compare` handler on an already-parsed JSON object:
one shared base price (brand range × category multiplier), one entry per
retailer with independent jitter and discount, sorted ascending by
predicted price; `best_deal = comparisons[0]`. -/
def compareCore (req : CompareRequest) (u : ℚ) (j : ℕ → ℚ) (c : ℕ → ℕ) : CompareResult :=
  let product_name := req.product_name.getD ""
  let brand := req.brand.getD "Generic"
  let category := req.category.getD "Shirt"
  let (base_min, base_max) := (tlookup BRAND_PRICES brand).getD (500, 2000)
  let base_price0 := base_min + u * (base_max - base_min)
  let category_mult := (tlookup CATEGORY_MULTIPLIERS category).getD 1
  let base_price := base_price0 * category_mult
  let comparisons :=
    (compareEntries base_price product_name j c compareRetailers 0).insertionSort priceLE
  { product := product_name
    brand := brand
    comparisons := comparisons
    best_deal := comparisons.headI }

/-- HTTP outcome of the `/compare` endpoint. -/
inductive CompareResponse
  /-- 200 with `success: true`. -/
  | ok (status : ℕ) (r : CompareResult)
  /-- Error JSON with `success: false` and the given status. -/
  | err (status : ℕ)
deriving DecidableEq

/-- The `/compare` endpoint; a non-object body raises inside the `try`
and is converted to a 500. -/
def compare (body : Option CompareRequest) (u : ℚ) (j : ℕ → ℚ) (c : ℕ → ℕ) : CompareResponse :=
  match body with
  | none => .err 500
  | some req => .ok 200 (compareCore req u j c)

/-! ## `app.py` — `/batch_predict` -/

/-- One element of the `items` array of a `/batch_predict` request.  A
JSON array may hold values that are not objects; `.get` on such a value
raises `AttributeError`. -/
inductive JItem
  /-- A JSON object with the optional descriptor fields. -/
  | obj (brand category retailer : Option String)
  /-- Any non-object JSON value (string, number, null, ...). -/
  | malformed
deriving DecidableEq

/-- One entry of the `predictions` list of a batch response. -/
structure BatchPrediction where
  brand : String
  category : String
  predicted_price : ℚ
  success : Bool
deriving DecidableEq

/-- The loop of `batch_predict`: each item contributes one prediction
using its own random draws (`u i`, `j i`); the first non-object item
raises `AttributeError`, which propagates out of the loop. -/
def batchEntries (u j : ℕ → ℚ) : List JItem → ℕ → Except PyError (List BatchPrediction)
  | [], _ => .ok []
  | .malformed :: _, _ => .error .attrError
  | .obj b cat r :: rest, i =>
    let brand := b.getD "Generic"
    let category := cat.getD "Shirt"
    let retailer := r.getD "Myntra"
    let (base_min, base_max) := (tlookup BRAND_PRICES brand).getD (500, 2000)
    let base_price := base_min + u i * (base_max - base_min)
    let category_mult := (tlookup CATEGORY_MULTIPLIERS category).getD 1
    let retailer_adj := (tlookup RETAILER_ADJUSTMENTS retailer).getD 1
    let price := base_price * category_mult * retailer_adj * (95/100 + j i * (1/10))
    match batchEntries u j rest (i + 1) with
    | .ok preds =>
      .ok ({ brand := brand, category := category
             predicted_price := round2 price, success := true } :: preds)
    | .error e => .error e

/-- HTTP outcome of the `/batch_predict` endpoint. -/
inductive BatchResponse
  /-- 200 with `success: true`, `total_items` and the `predictions` list. -/
  | ok (status : ℕ) (total_items : ℕ) (predictions : List BatchPrediction)
  /-- Error JSON with `success: false` and the given status. -/
  | err (status : ℕ)
deriving DecidableEq

/-- The `/batch_predict` endpoint: 400 on an empty (or missing) items
list, otherwise the loop above; an exception anywhere in the loop aborts
the whole request with a 500. -/
def batch_predict (body : Option (List JItem)) (u j : ℕ → ℚ) : BatchResponse :=
  match body with
  | none => .err 500
  | some items =>
    if items.isEmpty then .err 400
    else
      match batchEntries u j items 0 with
      | .ok preds => .ok 200 items.length preds
      | .error _ => .err 500

/-! ## Response projections (used to state the claims) -/

/-- HTTP status of a `/predict` response. -/
def PredictResponse.status : PredictResponse → ℕ
  | .ok s _ => s
  | .err s => s

/-- The prediction payload of a `/predict` response, when present. -/
def PredictResponse.payload : PredictResponse → Option Prediction
  | .ok _ p => some p
  | .err _ => none

/-- HTTP status of a `/batch_predict` response. -/
def BatchResponse.status : BatchResponse → ℕ
  | .ok s _ _ => s
  | .err s => s

/-- The `total_items` field of a `/batch_predict` response, when present. -/
def BatchResponse.total : BatchResponse → Option ℕ
  | .ok _ t _ => some t
  | .err _ => none

/-- The `predictions` list of a `/batch_predict` response, when present. -/
def BatchResponse.items : BatchResponse → Option (List BatchPrediction)
  | .ok _ _ l => some l
  | .err _ => none

/-- Every entry of a batch predictions list is marked `success: true`. -/
def allSuccess (l : List BatchPrediction) : Bool :=
  l.all (fun p => p.success)

/-! ## `fashion_price_api.py` — database model -/

/-- A row of the `users` table. -/
structure UserRow where
  id : ℕ
  email : String
  password_hash : String
  full_name : String
deriving DecidableEq

/-- A row of the `user_profiles` table; JSON columns are stored as
serialized text, `none` models SQL `NULL`. -/
structure ProfileRow where
  user_id : ℕ
  gender : Option String
  body_type : Option String
  measurements : Option String
  undertone : Option String
  season : Option String
  color_palette : Option String
  skin_analysis : Option String
  preferences : Option String
deriving DecidableEq

/-- The SQLite state touched by the claims: the `users` and
`user_profiles` tables, plus the autoincrement counter behind
`cursor.lastrowid`. -/
structure DB where
  users : List UserRow
  profiles : List ProfileRow
  nextId : ℕ
deriving DecidableEq

/-- Python `str.strip()`: remove leading and trailing whitespace. -/
def pyStrip (s : String) : String :=
  String.mk (((s.data.dropWhile Char.isWhitespace).reverse.dropWhile Char.isWhitespace).reverse)

/-- Python `str.lower()` (ASCII case mapping; the handlers only ever
rely on ASCII behaviour). -/
def pyLower (s : String) : String := String.mk (s.data.map Char.toLower)

/-- The JSON body of a signup request. -/
structure SignupReq where
  email : Option String
  password : Option String
  full_name : Option String
deriving DecidableEq

/-- Outcome of the signup handler, tagged with the HTTP status it is
returned with. -/
inductive SignupResult
  /-- 201, account created with this user id. -/
  | created (user_id : ℕ)
  /-- 400, missing email/password or password shorter than 8. -/
  | badRequest
  /-- 409, email already registered. -/
  | conflict
deriving DecidableEq

/-- HTTP status code of a signup outcome. -/
def SignupResult.status : SignupResult → ℕ
  | .created _ => 201
  | .badRequest => 400
  | .conflict => 409

/-- The profile row inserted by signup:
`INSERT INTO user_profiles (user_id, preferences)` with the empty JSON object
as the preferences value,
every other column NULL. -/
def emptyProfile (user_id : ℕ) : ProfileRow :=
  { user_id := user_id, gender := none, body_type := none, measurements := none,
    undertone := none, season := none, color_palette := none, skin_analysis := none,
    preferences := some "\x7b\x7d" }

/-- The `signup` handler of `fashion_price_api.py`: normalize the email,
validate presence and password length, reject a duplicate email with
409, otherwise insert the user row and an empty profile row.  `hash`
stands for `werkzeug.generate_password_hash`. -/
def signup (db : DB) (req : SignupReq) (hash : String → String) : SignupResult × DB :=
  let email := pyLower (pyStrip (req.email.getD ""))
  let password := req.password.getD ""
  let full_name := pyStrip (req.full_name.getD "")
  if email = "" ∨ password = "" then (.badRequest, db)
  else if password.length < 8 then (.badRequest, db)
  else if db.users.any (fun row => row.email == email) then (.conflict, db)
  else
    let user_id := db.nextId
    (.created user_id,
     { users := db.users ++ [{ id := user_id, email := email,
                               password_hash := hash password, full_name := full_name }]
       profiles := db.profiles ++ [emptyProfile user_id]
       nextId := user_id + 1 })

/-- The JSON body of a profile-save request (the fields the UPDATE
writes; JSON blobs already serialized). -/
structure ProfileData where
  gender : Option String
  body_type : Option String
  measurements : String
  undertone : Option String
  season : Option String
  color_palette : String
  skin_analysis : String
  preferences : String
deriving DecidableEq

/-- Outcome of the profile-save handler. -/
inductive SaveResult
  /-- 200, `message: Profile saved`. -/
  | ok
  /-- 401, no `user_id` in the session. -/
  | unauthorized
deriving DecidableEq

/-- Apply the SET clause of the profile UPDATE to one row. -/
def updateRow (p : ProfileRow) (d : ProfileData) : ProfileRow :=
  { p with gender := d.gender, body_type := d.body_type,
           measurements := some d.measurements, undertone := d.undertone,
           season := d.season, color_palette := some d.color_palette,
           skin_analysis := some d.skin_analysis, preferences := some d.preferences }

/-- The `save_profile` handler: 401 without a session, otherwise a plain
`UPDATE user_profiles SET ... WHERE user_id = ?` — rows matching the id
are overwritten, and when no row matches the statement writes nothing
yet the handler still answers 200. -/
def save_profile (db : DB) (sessionUser : Option ℕ) (d : ProfileData) : SaveResult × DB :=
  match sessionUser with
  | none => (.unauthorized, db)
  | some user_id =>
    (.ok, { db with profiles :=
              db.profiles.map (fun p => if p.user_id = user_id then updateRow p d else p) })

/-! ## `fashion_price_api.py` — undertone analyzer -/

/-- Method `_analyze_rgb_ratios` of `AccurateUndertoneAnalyzer`. -/
def analyze_rgb_ratios (r g b : ℚ) : String :=
  let rg := r / (g + 1)
  let rb := r / (b + 1)
  if rb > 115/100 ∧ rg > 95/100 then "warm"
  else if rb < 105/100 then "cool"
  else "neutral"

/-- Method `_analyze_hsv` of `AccurateUndertoneAnalyzer` (OpenCV hue scale 0 to 180). -/
def analyze_hsv (h s _v : ℚ) : String :=
  if 15 ≤ h ∧ h ≤ 45 ∧ s > 30 then "warm"
  else if 90 ≤ h ∧ h ≤ 130 then "cool"
  else "neutral"

/-- Method `_analyze_lab` of `AccurateUndertoneAnalyzer`. -/
def analyze_lab (_l a b : ℚ) : String :=
  if b > 10 ∧ a > 5 then "warm"
  else if b < 5 ∨ (b < 10 ∧ a < 5) then "cool"
  else "neutral"

/-- Method `_calculate_yellowness` of `AccurateUndertoneAnalyzer`. -/
def calculate_yellowness (r g b : ℚ) : ℚ :=
  let yellowness := (r + g - 2 * b) / (r + g + b + 1)
  max 0 (min 1 ((yellowness + 1) / 2))

/-- The weight the vote of one method contributes to the total of one label. -/
def voteWeight (label target : String) (w : ℚ) : ℚ := if label = target then w else 0

/-- Python `max(undertone_votes, key=undertone_votes.get)` over the dict
built in insertion order `warm, cool, neutral`: the first label whose
total no later label strictly exceeds. -/
def maxVote (w c n : ℚ) : String :=
  if c > w then (if n > c then "neutral" else "cool")
  else (if n > w then "neutral" else "warm")

/-- The weighted-vote combination of `analyze_skin_undertone`
(lines 299–320): RGB weighs 2.0, HSV 1.5, Lab 3.0, and the yellowness
index adds 1.5 to warm (> 0.6), 1.5 to cool (< 0.4) or 1.0 to neutral. -/
def combine_votes (rgbVote hsvVote labVote : String) (yellowness : ℚ) : String :=
  let yVote : String × ℚ :=
    if yellowness > 6/10 then ("warm", 3/2)
    else if yellowness < 4/10 then ("cool", 3/2)
    else ("neutral", 1)
  let total (t : String) : ℚ :=
    voteWeight rgbVote t 2 + voteWeight hsvVote t (3/2) +
      voteWeight labVote t 3 + voteWeight yVote.1 t yVote.2
  maxVote (total "warm") (total "cool") (total "neutral")

/-- Method `_determine_season` of `AccurateUndertoneAnalyzer`. -/
def determine_season (undertone : String) (lightness _confidence : ℚ) : String :=
  let is_light := lightness > 140
  if undertone = "warm" then (if is_light then "Spring" else "Autumn")
  else if undertone = "cool" then (if is_light then "Summer" else "Winter")
  else (if is_light then "Summer" else "Autumn")

/-- The analyzer pipeline specialised to a uniform achromatic sample
with channel value `v` (mean R = G = B = v).  The color-space inputs
come from the documented 8-bit OpenCV conversions on such a sample:
`cvtColor(RGB2HSV)` yields H = 0, S = 0, V = v (zero chroma), and
`cvtColor(RGB2LAB)` yields a = b = 128, since for R = G = B the XYZ
ratios to the D65 white point coincide, so a* = b* = 0, stored with the
8-bit offset of +128; the L channel (`labL`) does not influence the
vote. -/
def grayVerdict (v labL : ℚ) : String :=
  combine_votes (analyze_rgb_ratios v v v) (analyze_hsv 0 0 v)
    (analyze_lab labL 128 128) (calculate_yellowness v v v)

/-! ## Concrete fixtures used by counterexamples and witnesses -/

/-- A constant unit draw (the midpoint, `random() = 0.5`). -/
def halfDraw : ℕ → ℚ := fun _ => 1/2

/-- Draw-index selector used for `random.choice` in compare fixtures. -/
def idxDraw : ℕ → ℕ := fun n => n

/-- A `/predict` request naming known category and retailer but no brand. -/
def reqJeans : PredictRequest := ⟨none, some "Jeans", some "Myntra", none⟩

/-- The prediction `predict` returns for `reqJeans` with unit draws
`u = 29/250000`, `j = 1/2` (pre-rounding price exactly 500.174). -/
def predJeans : Prediction :=
  { current_price := 50017/100, original_price := 65023/100,
    price_range := { min := 8503/20, max := 2876/5 }, discount_percent := 0 }

/-- A `/predict` request with every field absent. -/
def reqEmpty : PredictRequest := ⟨none, none, none, none⟩

/-- A `/predict` request with a 10% discount. -/
def reqTen : PredictRequest := ⟨none, some "Jeans", some "Myntra", some 10⟩

/-- A `/predict` request with a 100% discount. -/
def reqHundred : PredictRequest := ⟨none, none, none, some 100⟩

/-- The prediction `predict` returns for `reqTen` with unit draws
`u = j = 1/2` (pre-rounding price exactly 1250). -/
def pTen : Prediction :=
  { current_price := 1250, original_price := 138889/100,
    price_range := { min := 2125/2, max := 2875/2 }, discount_percent := 10 }

/-- A `/predict` request with brand, category and retailer absent from
every pricing table. -/
def reqUnknown : PredictRequest := ⟨some "NoSuchBrand", some "NoSuchCat", some "NoSuchShop", none⟩

/-- A `/compare` request fixture. -/
def reqCmp : CompareRequest := ⟨some "Blue Jeans", some "Levi\x27s", some "Jeans"⟩

/-- A database whose `users` table already holds the email `a@b.com`. -/
def dbDup : DB :=
  { users := [{ id := 1, email := "a@b.com", password_hash := "hh", full_name := "nn" }],
    profiles := [emptyProfile 1], nextId := 2 }

/-- A signup request for the already-registered email with a too-short
password. -/
def reqShortPw : SignupReq := ⟨some "a@b.com", some "abc", some "nn"⟩

/-- A signup request for the already-registered email passing all field
validation. -/
def reqDupOk : SignupReq := ⟨some "a@b.com", some "password1", some "nn"⟩

/-- A valid signup request against an empty database. -/
def reqFresh : SignupReq := ⟨some "c@d.com", some "password1", some "nm"⟩

/-- The empty database. -/
def dbEmpty : DB := { users := [], profiles := [], nextId := 1 }

/-- The database produced by running `signup dbEmpty reqFresh id`. -/
def dbAfterFresh : DB :=
  { users := [{ id := 1, email := "c@d.com", password_hash := "password1", full_name := "nm" }],
    profiles := [emptyProfile 1], nextId := 2 }

/-- A profile-save payload fixture. -/
def pdFixture : ProfileData :=
  { gender := some "women", body_type := some "Pear", measurements := "\x7b\x7d",
    undertone := some "warm", season := some "Spring", color_palette := "[]",
    skin_analysis := "\x7b\x7d", preferences := "\x7b\x7d" }

/-! ## Theorems -/

/-- C7: for every undertone verdict in {warm, cool, neutral} and every
lightness value L, the derived season is: warm → Spring if L > 140 else
Autumn; cool → Summer if L > 140 else Winter; neutral → Summer if
L > 140 else Autumn. -/
theorem C7_season_map (L conf : ℚ) :
    determine_season "warm" L conf = (if L > 140 then "Spring" else "Autumn") ∧
    determine_season "cool" L conf = (if L > 140 then "Summer" else "Winter") ∧
    determine_season "neutral" L conf = (if L > 140 then "Summer" else "Autumn") := by
  refine ⟨?_, ?_, ?_⟩ <;> simp [determine_season]

/-- C8 counterexample: for the balanced gray sample R = G = B = 128 the
yellowness index is exactly 0.5, but the combined weighted vote yields
the verdict `warm`, not `neutral`: the RGB-ratio method votes cool
(128/129 < 1.05), HSV votes neutral, and the Lab method — fed the OpenCV
offset 8-bit chroma a = b = 128 — votes warm with the dominant weight
3.0 (totals: warm 3.0, cool 2.0, neutral 2.5). -/
theorem C8_gray_counterexample :
    calculate_yellowness 128 128 128 = 1/2 ∧
    grayVerdict 128 137 = "warm" ∧ "warm" ≠ "neutral" := by
  have hy : calculate_yellowness 128 128 128 = 1/2 := by norm_num [calculate_yellowness]
  have hr : analyze_rgb_ratios 128 128 128 = "cool" := by norm_num [analyze_rgb_ratios]
  have hh : analyze_hsv 0 0 128 = "neutral" := by norm_num [analyze_hsv]
  have hl : analyze_lab 137 128 128 = "warm" := by norm_num [analyze_lab]
  have h1 : ("neutral" : String) ≠ "warm" := by decide
  have h2 : ("neutral" : String) ≠ "cool" := by decide
  refine ⟨hy, ?_, by decide⟩
  unfold grayVerdict
  rw [hy, hr, hh, hl]
  simp [combine_votes, voteWeight, maxVote]
  norm_num [h1, h2]

/-- C8 amended: for the balanced gray sample R = G = B = 128, the
yellowness index is exactly 0.5 and the combined weighted vote of the
four methods yields the verdict `warm` (whatever the Lab lightness
channel is). -/
theorem C8_gray_verdict (labL : ℚ) :
    calculate_yellowness 128 128 128 = 1/2 ∧ grayVerdict 128 labL = "warm" := by
  have hy : calculate_yellowness 128 128 128 = 1/2 := by norm_num [calculate_yellowness]
  have hr : analyze_rgb_ratios 128 128 128 = "cool" := by norm_num [analyze_rgb_ratios]
  have hh : analyze_hsv 0 0 128 = "neutral" := by norm_num [analyze_hsv]
  have hl : analyze_lab labL 128 128 = "warm" := by norm_num [analyze_lab]
  have h1 : ("neutral" : String) ≠ "warm" := by decide
  have h2 : ("neutral" : String) ≠ "cool" := by decide
  refine ⟨hy, ?_⟩
  unfold grayVerdict
  rw [hy, hr, hh, hl]
  simp [combine_votes, voteWeight, maxVote]
  norm_num [h1, h2]

/-- C4 counterexample: a request missing both required fields (brand and
category absent) is not rejected with a validation error — the handler
defaults them to `Generic` / `Shirt` and returns a successful (HTTP 200)
estimate. -/
theorem C4_missing_fields_counterexample :
    predict (some reqEmpty) (1/2) (1/2) =
      .ok 200 { current_price := 1000, original_price := 1300,
                price_range := { min := 850, max := 1150 }, discount_percent := 0 } := by
  simp only [predict, predictCore, rawPrice, reqEmpty]
  simp [tlookup, BRAND_PRICES, CATEGORY_MULTIPLIERS, RETAILER_ADJUSTMENTS]
  norm_num [round2, round_eq]

/-- C3 counterexample: with draws `u = 29/250000`, `j = 1/2` (both in
[0, 1]) the pre-rounding price is exactly 500.174, the response reports
`current_price = 500.17` and `price_range.min = 425.15`, yet
`round(current_price * 0.85, 2) = 425.14` — so
`price_range.min = round(current_price * 0.85, 2)` fails: the code
derives the range from the pre-rounding price, not from the rounded
`current_price`. -/
theorem C3_rounding_counterexample :
    (0:ℚ) ≤ 29/250000 ∧ (29:ℚ)/250000 ≤ 1 ∧
    predict (some reqJeans) (29/250000) (1/2) = .ok 200 predJeans ∧
    round2 (predJeans.current_price * (85/100)) = 21257/50 ∧
    predJeans.price_range.min ≠ 21257/50 := by
  refine ⟨by norm_num, by norm_num, ?_, ?_, ?_⟩
  · simp only [predict, predictCore, rawPrice, reqJeans, predJeans]
    simp [tlookup, BRAND_PRICES, CATEGORY_MULTIPLIERS, RETAILER_ADJUSTMENTS]
    norm_num [round2, round_eq]
  · norm_num [predJeans, round2, round_eq]
  · norm_num [predJeans]

/-- C1 counterexample: a two-item batch whose second item is malformed
(not a JSON object) does not yield one failure and one success — the
whole request aborts with a single HTTP 500 error response carrying no
predictions at all. -/
theorem C1_malformed_counterexample :
    batch_predict (some [JItem.obj none none none, JItem.malformed]) halfDraw halfDraw =
      .err 500 := by
  rfl

/-- C6 counterexample: a signup request whose email `a@b.com` already
exists in the users table but whose password is shorter than 8
characters returns HTTP 400 (validation), not 409. -/
theorem C6_short_password_counterexample :
    ({ id := 1, email := "a@b.com", password_hash := "hh", full_name := "nn" } : UserRow)
        ∈ dbDup.users ∧
    signup dbDup reqShortPw id = (.badRequest, dbDup) ∧
    SignupResult.badRequest.status = 400 ∧ SignupResult.badRequest ≠ .conflict := by
  decide

/-- A malformed element anywhere in the items list makes the batch loop
raise, whatever index it starts at. -/
theorem batchEntries_error (u j : ℕ → ℚ) :
    ∀ (items : List JItem) (i : ℕ), JItem.malformed ∈ items →
      batchEntries u j items i = .error .attrError := by
  intro items
  induction items with
  | nil => intro i hmem; cases hmem
  | cons hd rest ih =>
    intro i hmem
    cases hd with
    | malformed => rfl
    | obj b cat r =>
      have hrest : JItem.malformed ∈ rest := by
        cases hmem with
        | tail _ h => exact h
      simp only [batchEntries, ih (i + 1) hrest]

/-- When every element of the items list is a JSON object, the batch
loop returns one successful prediction per item. -/
theorem batchEntries_ok (u j : ℕ → ℚ) :
    ∀ (items : List JItem) (i : ℕ), JItem.malformed ∉ items →
      ∃ preds, batchEntries u j items i = .ok preds ∧
        preds.length = items.length ∧ allSuccess preds = true := by
  intro items
  induction items with
  | nil => exact fun i _ => ⟨[], rfl, rfl, rfl⟩
  | cons hd rest ih =>
    intro i hmem
    cases hd with
    | malformed => exact absurd (List.mem_cons_self _ _) hmem
    | obj b cat r =>
      obtain ⟨preds, hok, hlen, hsucc⟩ :=
        ih (i + 1) (fun h => hmem (List.mem_cons_of_mem _ h))
      simp only [batchEntries, hok]
      refine ⟨_, rfl, ?_, ?_⟩
      · simp [hlen]
      · simp only [allSuccess] at hsucc ⊢
        simp [hsucc]

/-- C1: corrected.  `batch_predict` has no per-item failure isolation: a
single malformed item makes the whole request fail with one HTTP 500
error response and no predictions, while a batch of N well-formed items
yields a 200 response with `total_items = N` and N predictions, all
marked successful. -/
theorem C1_batch_abort :
    (∀ (items : List JItem) (u j : ℕ → ℚ), JItem.malformed ∈ items →
        batch_predict (some items) u j = .err 500) ∧
    (∀ (items : List JItem) (u j : ℕ → ℚ), items ≠ [] → JItem.malformed ∉ items →
        (batch_predict (some items) u j).status = 200 ∧
        (batch_predict (some items) u j).total = some items.length ∧
        ((batch_predict (some items) u j).items).map List.length = some items.length ∧
        ((batch_predict (some items) u j).items).map allSuccess = some true) := by
  constructor
  · intro items u j hmem
    have hne : items ≠ [] := by rintro rfl; cases hmem
    simp only [batch_predict, List.isEmpty_eq_false_iff_exists_mem.mpr
      ⟨_, hmem⟩, Bool.false_eq_true, if_false, batchEntries_error u j items 0 hmem]
  · intro items u j hne hmem
    obtain ⟨preds, hok, hlen, hsucc⟩ := batchEntries_ok u j items 0 hmem
    have hemp : items.isEmpty = false := by
      cases items with
      | nil => exact absurd rfl hne
      | cons a l => rfl
    simp only [batch_predict, hemp, Bool.false_eq_true, if_false, hok,
      BatchResponse.status, BatchResponse.total, BatchResponse.items]
    simp [hlen, hsucc]

/-- C1 witness: the amended theorem applied to a concrete two-item batch
with a malformed second item, and to a concrete well-formed one-item
batch. -/
theorem C1_batch_abort_witness :
    batch_predict (some [JItem.obj none none none, JItem.malformed]) halfDraw halfDraw
        = .err 500 ∧
    (batch_predict (some [JItem.obj none none none]) halfDraw halfDraw).status = 200 ∧
    (batch_predict (some [JItem.obj none none none]) halfDraw halfDraw).total = some 1 :=
  ⟨C1_batch_abort.1 _ halfDraw halfDraw (by simp),
   (C1_batch_abort.2 [JItem.obj none none none] halfDraw halfDraw
      (by simp) (by simp)).1,
   (C1_batch_abort.2 [JItem.obj none none none] halfDraw halfDraw
      (by simp) (by simp)).2.1⟩

/-- The compare loop produces one entry per retailer. -/
theorem length_compareEntries (base_price : ℚ) (product_name : String)
    (j : ℕ → ℚ) (c : ℕ → ℕ) :
    ∀ (rs : List String) (i : ℕ),
      (compareEntries base_price product_name j c rs i).length = rs.length := by
  intro rs
  induction rs with
  | nil => intro i; rfl
  | cons hd rest ih => intro i; simp [compareEntries, ih (i + 1)]

/-- C2: for every successful response of the compare operation, the
comparisons sequence is sorted non-decreasing by predicted_price, and
best_deal equals its first element. -/
theorem C2_compare_sorted (body : Option CompareRequest) (u : ℚ) (j : ℕ → ℚ) (c : ℕ → ℕ)
    (res : CompareResult) (h : compare body u j c = .ok 200 res) :
    res.comparisons.Sorted priceLE ∧ res.comparisons.head? = some res.best_deal := by
  cases body with
  | none => simp [compare] at h
  | some req =>
    simp only [compare, CompareResponse.ok.injEq, true_and] at h
    subst h
    constructor
    · exact List.sorted_insertionSort priceLE _
    · have hlen : (compareCore req u j c).comparisons.length = 6 := by
        show (List.insertionSort priceLE _).length = 6
        rw [List.length_insertionSort, length_compareEntries]
        rfl
      have hne : (compareCore req u j c).comparisons ≠ [] := by
        intro hnil
        rw [hnil] at hlen
        cases hlen
      obtain ⟨a, t, hat⟩ := List.exists_cons_of_ne_nil hne
      have hbd : (compareCore req u j c).best_deal = (compareCore req u j c).comparisons.headI :=
        rfl
      rw [hbd, hat]
      rfl

/-- C2 witness: the theorem applied to a concrete compare request. -/
theorem C2_compare_sorted_witness :
    (compareCore reqCmp (1/2) halfDraw idxDraw).comparisons.Sorted priceLE ∧
    (compareCore reqCmp (1/2) halfDraw idxDraw).comparisons.head?
      = some (compareCore reqCmp (1/2) halfDraw idxDraw).best_deal :=
  C2_compare_sorted (some reqCmp) (1/2) halfDraw idxDraw _ rfl

/-- Whenever the effective discount is not exactly 100, `predict`
succeeds, and every response field is the rounding of the corresponding
pre-rounding formula. -/
theorem predict_ok_char (req : PredictRequest) (u j : ℚ)
    (h : req.discount_percent.getD 0 ≠ 100) :
    predict (some req) u j = .ok 200
      { current_price := round2 (rawPrice req u j)
        original_price := round2 (if 0 < req.discount_percent.getD 0
          then rawPrice req u j / (1 - req.discount_percent.getD 0 / 100)
          else rawPrice req u j * (13/10))
        price_range := { min := round2 (rawPrice req u j * (85/100))
                         max := round2 (rawPrice req u j * (115/100)) }
        discount_percent := req.discount_percent.getD 0 } := by
  unfold predict predictCore
  by_cases hpos : 0 < req.discount_percent.getD 0
  · have hden : ¬(1 - req.discount_percent.getD 0 / 100 = 0) := by
      intro h0
      exact h (by linarith)
    simp only [if_pos hpos, if_neg hden]
  · simp only [if_neg hpos]

/-- With an effective discount of exactly 100 the derivation of
`original_price` divides by zero; the raised `ZeroDivisionError` is
caught by the handler and turned into an HTTP 500. -/
theorem predict_div_zero (req : PredictRequest) (u j : ℚ)
    (h : req.discount_percent.getD 0 = 100) :
    predict (some req) u j = .err 500 := by
  simp only [predict, predictCore, h]
  norm_num

/-- C3: corrected.  In every successful predict response the range is
derived from the pre-rounding price `rawPrice`:
`current_price = round(rawPrice, 2)`,
`price_range.min = round(rawPrice*0.85, 2)` and
`price_range.max = round(rawPrice*1.15, 2)` — not from the rounded
`current_price` as the claim stated. -/
theorem C3_range_from_raw (req : PredictRequest) (u j : ℚ) (p : Prediction)
    (h : predict (some req) u j = .ok 200 p) :
    p.current_price = round2 (rawPrice req u j) ∧
    p.price_range.min = round2 (rawPrice req u j * (85/100)) ∧
    p.price_range.max = round2 (rawPrice req u j * (115/100)) := by
  by_cases hd : req.discount_percent.getD 0 = 100
  · rw [predict_div_zero req u j hd] at h
    cases h
  · rw [predict_ok_char req u j hd] at h
    simp only [PredictResponse.ok.injEq, true_and] at h
    subst h
    exact ⟨rfl, rfl, rfl⟩

/-- C3 witness: the amended theorem applied to the all-defaults request
at concrete draws. -/
theorem C3_range_from_raw_witness :
    ({ current_price := 1000, original_price := 1300,
       price_range := { min := 850, max := 1150 },
       discount_percent := 0 } : Prediction).current_price
        = round2 (rawPrice reqEmpty (1/2) (1/2)) ∧
    ({ current_price := 1000, original_price := 1300,
       price_range := { min := 850, max := 1150 },
       discount_percent := 0 } : Prediction).price_range.min
        = round2 (rawPrice reqEmpty (1/2) (1/2) * (85/100)) ∧
    ({ current_price := 1000, original_price := 1300,
       price_range := { min := 850, max := 1150 },
       discount_percent := 0 } : Prediction).price_range.max
        = round2 (rawPrice reqEmpty (1/2) (1/2) * (115/100)) :=
  C3_range_from_raw reqEmpty (1/2) (1/2) _ (by
    simp only [predict, predictCore, rawPrice, reqEmpty]
    simp [tlookup, BRAND_PRICES, CATEGORY_MULTIPLIERS, RETAILER_ADJUSTMENTS]
    norm_num [round2, round_eq])

/-- C5: for every successful predict response, `original_price` is the
rounding of `price / (1 - discount_percent/100)` when
`discount_percent > 0` and of `price * 1.3` otherwise, where `price` is
the pre-rounding value behind `current_price`. -/
theorem C5_original_price (req : PredictRequest) (u j : ℚ) (p : Prediction)
    (h : predict (some req) u j = .ok 200 p) :
    p.original_price = round2 (if 0 < req.discount_percent.getD 0
      then rawPrice req u j / (1 - req.discount_percent.getD 0 / 100)
      else rawPrice req u j * (13/10)) := by
  by_cases hd : req.discount_percent.getD 0 = 100
  · rw [predict_div_zero req u j hd] at h
    cases h
  · rw [predict_ok_char req u j hd] at h
    simp only [PredictResponse.ok.injEq, true_and] at h
    subst h
    rfl

/-- C5 witness: the theorem applied to a request with a 10% discount at
concrete draws (pre-rounding price 1250, original price 1250/0.9 rounded
to 1388.89). -/
theorem C5_original_price_witness :
    pTen.original_price = round2 (if 0 < reqTen.discount_percent.getD 0
      then rawPrice reqTen (1/2) (1/2) / (1 - reqTen.discount_percent.getD 0 / 100)
      else rawPrice reqTen (1/2) (1/2) * (13/10)) :=
  C5_original_price reqTen (1/2) (1/2) pTen (by
    simp only [predict, predictCore, rawPrice, reqTen, pTen]
    simp [tlookup, BRAND_PRICES, CATEGORY_MULTIPLIERS, RETAILER_ADJUSTMENTS]
    norm_num [round2, round_eq])

/-- C10: a predict request with `discount_percent = 100` makes
`price / (1 - discount_percent/100)` divide by zero and the broad
`except` clause converts it into an HTTP 500 response; for every
discount in [0, 100) the division is well-defined and the request
succeeds with HTTP 200. -/
theorem C10_division_by_zero :
    (∀ (req : PredictRequest) (u j : ℚ), req.discount_percent.getD 0 = 100 →
        predict (some req) u j = .err 500) ∧
    (∀ (req : PredictRequest) (u j : ℚ), 0 ≤ req.discount_percent.getD 0 →
        req.discount_percent.getD 0 < 100 →
        (predict (some req) u j).status = 200) :=
  ⟨fun req u j h => predict_div_zero req u j h,
   fun req u j _ h100 => by rw [predict_ok_char req u j (ne_of_lt h100)]; rfl⟩

/-- C10 witness: the theorem applied to a 100% discount request and to a
10% discount request, both at concrete draws. -/
theorem C10_division_by_zero_witness :
    predict (some reqHundred) (1/2) (1/2) = .err 500 ∧
    (predict (some reqTen) (1/2) (1/2)).status = 200 :=
  ⟨C10_division_by_zero.1 reqHundred (1/2) (1/2) (by norm_num [reqHundred]),
   C10_division_by_zero.2 reqTen (1/2) (1/2) (by norm_num [reqTen]) (by norm_num [reqTen])⟩

/-- C4: corrected.  `predict` never raises for an unknown brand,
category or retailer: it falls back to the default base range
(500, 2000) and multiplier 1.0 and returns a successful estimate
(whenever the discount is not exactly 100).  A request missing the
brand and category fields, however, is NOT rejected with a validation
error: the fields silently default to `Generic` and `Shirt` (a known
category, multiplier 0.8) and the request succeeds like any other. -/
theorem C4_unknown_fallback :
    (∀ (req : PredictRequest) (u j : ℚ),
        tlookup BRAND_PRICES (req.brand.getD "Generic") = none →
        tlookup CATEGORY_MULTIPLIERS (req.category.getD "Shirt") = none →
        tlookup RETAILER_ADJUSTMENTS (req.retailer.getD "Myntra") = none →
        req.discount_percent.getD 0 ≠ 100 →
        (predict (some req) u j).status = 200 ∧
        ((predict (some req) u j).payload).map Prediction.current_price =
          some (round2 ((500 + u * (2000 - 500)) * 1 * 1 * (95/100 + j * (1/10))))) ∧
    (∀ u j : ℚ,
        (predict (some reqEmpty) u j).status = 200 ∧
        ((predict (some reqEmpty) u j).payload).map Prediction.current_price =
          some (round2 ((500 + u * (2000 - 500)) * (8/10) * 1 * (95/100 + j * (1/10))))) := by
  constructor
  · intro req u j hb hc hr hd
    have hraw : rawPrice req u j
        = (500 + u * (2000 - 500)) * 1 * 1 * (95/100 + j * (1/10)) := by
      simp [rawPrice, hb, hc, hr]
    rw [predict_ok_char req u j hd]
    exact ⟨rfl, by simp [PredictResponse.payload, hraw]⟩
  · intro u j
    have hd : reqEmpty.discount_percent.getD 0 ≠ 100 := by norm_num [reqEmpty]
    have hraw : rawPrice reqEmpty u j
        = (500 + u * (2000 - 500)) * (8/10) * 1 * (95/100 + j * (1/10)) := by
      simp only [rawPrice, reqEmpty]
      simp [tlookup, BRAND_PRICES, CATEGORY_MULTIPLIERS, RETAILER_ADJUSTMENTS]
    rw [predict_ok_char reqEmpty u j hd]
    exact ⟨rfl, by simp [PredictResponse.payload, hraw]⟩

/-- C4 witness: the amended theorem applied to a request whose brand,
category and retailer are absent from every table, and to the
all-defaults request. -/
theorem C4_unknown_fallback_witness :
    ((predict (some reqUnknown) (1/2) (1/2)).status = 200 ∧
      ((predict (some reqUnknown) (1/2) (1/2)).payload).map Prediction.current_price =
        some (round2 ((500 + (1:ℚ)/2 * (2000 - 500)) * 1 * 1 * (95/100 + (1:ℚ)/2 * (1/10))))) ∧
    ((predict (some reqEmpty) (1/3) (1/3)).status = 200 ∧
      ((predict (some reqEmpty) (1/3) (1/3)).payload).map Prediction.current_price =
        some (round2 ((500 + (1:ℚ)/3 * (2000 - 500)) * (8/10) * 1 * (95/100 + (1:ℚ)/3 * (1/10))))) :=
  ⟨C4_unknown_fallback.1 reqUnknown (1/2) (1/2)
      (by simp [reqUnknown, tlookup, BRAND_PRICES])
      (by simp [reqUnknown, tlookup, CATEGORY_MULTIPLIERS])
      (by simp [reqUnknown, tlookup, RETAILER_ADJUSTMENTS])
      (by norm_num [reqUnknown]),
   C4_unknown_fallback.2 (1/3) (1/3)⟩

/-- C6: corrected.  A signup request whose normalized email already
exists in the users table leaves the users and profiles tables
unchanged in every case, and returns 409 provided the request passes
field validation (nonempty normalized email, nonempty password of
length at least 8); a duplicate-email request failing validation is
instead answered 400. -/
theorem C6_duplicate_email (db : DB) (req : SignupReq) (hash : String → String)
    (hdup : ∃ row ∈ db.users, row.email = pyLower (pyStrip (req.email.getD ""))) :
    (signup db req hash).2 = db ∧
    (pyLower (pyStrip (req.email.getD "")) ≠ "" → req.password.getD "" ≠ "" →
      ¬(req.password.getD "").length < 8 → (signup db req hash).1 = .conflict) := by
  have hany : (db.users.any fun row => row.email == pyLower (pyStrip (req.email.getD ""))) = true := by
    rw [List.any_eq_true]
    obtain ⟨row, hm, he⟩ := hdup
    exact ⟨row, hm, beq_iff_eq.mpr he⟩
  simp only [signup]
  by_cases h1 : pyLower (pyStrip (req.email.getD "")) = "" ∨ req.password.getD "" = ""
  · simp only [if_pos h1]
    refine ⟨by trivial, fun he hp _ => ?_⟩
    rcases h1 with h | h
    · exact absurd h he
    · exact absurd h hp
  · simp only [if_neg h1]
    by_cases h2 : (req.password.getD "").length < 8
    · simp only [if_pos h2]
      exact ⟨by trivial, fun _ _ hnl => absurd h2 hnl⟩
    · simp only [if_neg h2, hany, if_true]
      exact ⟨by trivial, fun _ _ _ => by trivial⟩

/-- C6 witness: the amended theorem applied to a database already
holding `a@b.com` and a validation-passing duplicate signup request. -/
theorem C6_duplicate_email_witness :
    (signup dbDup reqDupOk id).2 = dbDup ∧ (signup dbDup reqDupOk id).1 = .conflict :=
  have h := C6_duplicate_email dbDup reqDupOk id (by decide)
  ⟨h.1, h.2 (by decide) (by decide) (by decide)⟩

/-- Mapping a function that fixes every element of a list is the
identity on that list. -/
theorem map_id_of_mem {α : Type} (l : List α) (f : α → α) (h : ∀ x ∈ l, f x = x) :
    l.map f = l := by
  induction l with
  | nil => rfl
  | cons a t ih =>
    simp only [List.map_cons, h a (List.mem_cons_self a t),
      ih fun x hx => h x (List.mem_cons_of_mem a hx)]

/-- C9: every successful signup also inserts exactly one empty profile
row (preferences set to the empty JSON object) for the new user, and
`save_profile` is a plain UPDATE keyed by user_id: for a user id with
no existing profile row it reports success while leaving the database
unchanged. -/
theorem C9_profile_row_lifecycle :
    (∀ (db : DB) (req : SignupReq) (hash : String → String) (uid : ℕ) (db2 : DB),
        signup db req hash = (.created uid, db2) →
        db2.profiles = db.profiles ++ [emptyProfile uid] ∧
        (emptyProfile uid).preferences = some "\x7b\x7d") ∧
    (∀ (db : DB) (uid : ℕ) (d : ProfileData),
        (∀ p ∈ db.profiles, p.user_id ≠ uid) →
        save_profile db (some uid) d = (.ok, db)) := by
  constructor
  · intro db req hash uid db2 h
    simp only [signup] at h
    split at h
    · simp at h
    · split at h
      · simp at h
      · split at h
        · simp at h
        · simp only [Prod.mk.injEq, SignupResult.created.injEq] at h
          obtain ⟨huid, hdb⟩ := h
          subst huid
          subst hdb
          exact ⟨rfl, rfl⟩
  · intro db uid d h
    simp only [save_profile]
    rw [map_id_of_mem _ _ (fun p hp => if_neg (h p hp))]

/-- C9 witness: the theorem applied to a concrete fresh signup and to a
profile save for a user id with no profile row. -/
theorem C9_profile_row_lifecycle_witness :
    (dbAfterFresh.profiles = dbEmpty.profiles ++ [emptyProfile 1] ∧
      (emptyProfile 1).preferences = some "\x7b\x7d") ∧
    save_profile dbAfterFresh (some 2) pdFixture = (.ok, dbAfterFresh) :=
  ⟨C9_profile_row_lifecycle.1 dbEmpty reqFresh id 1 dbAfterFresh (by decide),
   C9_profile_row_lifecycle.2 dbAfterFresh 2 pdFixture (by decide)⟩

end Closetly
